import Mathlib

/-!
Shallow embedding of `lightwood/encoders/text/pretrained.py` (class `PretrainedLang`).

Modelling choices:
* Python exceptions are represented by the error type `EncErr`; methods that can raise
  return `Except EncErr _`, and `prepare`, which mutates `self` before possibly raising,
  returns the updated state together with an optional error.
* torch modules (the backbone model, the optional fine-tuning head) are records carrying
  an abstract payload and the `Device` they currently live on; `TorchModule.to` is the
  torch `Module.to(device)` relocation.
* The hidden-state type produced by a backbone forward pass is an abstract type
  parameter `HS`; the sentence-embedder field stores which static method was selected
  (`_mean_norm` or `_last_state`), and `encode` applies it through an abstract
  interpretation function, since the claims about `encode` do not depend on tensor
  contents.  The numeric content of `_mean_norm` itself is embedded separately over ℚ
  (`PretrainedLang.mean_norm`), with `.detach().numpy()` the identity on values.
-/

namespace Lightwood

/-- Compute devices, as returned by the device-selection utility and accepted by
torch's `Module.to`. -/
inductive Device
  | cpu
  | cuda
deriving DecidableEq, Repr

/-- The sequence-classification model classes imported from `transformers`. -/
inductive ClassifierModelClass
  | distilBertForSequenceClassification
  | albertForSequenceClassification
  | bartForSequenceClassification
  | gpt2ForSequenceClassification
deriving DecidableEq, Repr

/-- The embedding (backbone) model classes imported from `transformers`. -/
inductive EmbeddingsModelClass
  | distilBertModel
  | albertModel
  | bartModel
  | gpt2Model
deriving DecidableEq, Repr

/-- The fast tokenizer classes imported from `transformers`. -/
inductive TokenizerClass
  | distilBertTokenizerFast
  | albertTokenizerFast
  | bartTokenizerFast
  | gpt2TokenizerFast
deriving DecidableEq, Repr

/-- Which static pooling method of `PretrainedLang` was bound to `self._sent_embedder`
at construction time (`_mean_norm` or `_last_state`). -/
inductive SentEmbedderImpl
  | mean_norm
  | last_state
deriving DecidableEq, Repr

/-- The errors the embedded methods can raise.

* `alreadyPrepared`     — `Exception("Encoder is already prepared.")`
* `trainNotImplemented` — `NotImplementedError("TODO; train fxn not implemented")`
* `decodeNotImplemented`— `Exception("Decoder not implemented yet.")`
* `emptyTensorList`     — `RuntimeError` raised by `torch.stack` on an empty list
* `attributeError`      — Python `AttributeError` from reading an attribute of `None`
* `noneNotCallable`     — Python `TypeError` from calling a `None` model
* `notPrepared`         — the "not prepared" misuse error the spec names for
  `encode`-before-`prepare`; listed so that the spec's claim can be stated, no code
  path in `pretrained.py` raises it. -/
inductive EncErr
  | alreadyPrepared
  | trainNotImplemented
  | decodeNotImplemented
  | emptyTensorList
  | attributeError
  | noneNotCallable
  | notPrepared
deriving DecidableEq, Repr

/-- A torch module: an abstract payload (e.g. the forward function) plus the device the
module currently lives on. -/
structure TorchModule (P : Type) where
  payload : P
  device : Device

/-- `Module.to(device)`: relocate the module to the given device. -/
def TorchModule.to {P : Type} (m : TorchModule P) (d : Device) : TorchModule P :=
  { m with device := d }

/-- A tokenizer's `encode` method: text to a sequence of token ids. -/
abbrev TokenizerFn : Type := String → List Nat

/-- The result object of a backbone forward pass, of which `encode` reads
`.last_hidden_state`. -/
structure ModelOutput (HS : Type) where
  last_hidden_state : HS

/-- A backbone model's forward function: token ids to a model output. -/
abbrev ModelFn (HS : Type) : Type := List Nat → ModelOutput HS

/-- The four registry bindings set up by the `if/elif` chain of
`PretrainedLang.__init__` (lines 99–118): classifier class, embeddings class,
tokenizer class and pretrained checkpoint name. -/
structure ModelBinding where
  classifier_model_class : ClassifierModelClass
  embeddings_model_class : EmbeddingsModelClass
  tokenizer_class : TokenizerClass
  pretrained_model_name : String
deriving DecidableEq, Repr

/-- The `if model_name == "distilbert" / "albert" / "bart" / else` chain of
`PretrainedLang.__init__`, resolving the model-family binding. -/
def resolveModelBinding (model_name : String) : ModelBinding :=
  if model_name = "distilbert" then
    { classifier_model_class := ClassifierModelClass.distilBertForSequenceClassification
      embeddings_model_class := EmbeddingsModelClass.distilBertModel
      tokenizer_class := TokenizerClass.distilBertTokenizerFast
      pretrained_model_name := "distilbert-base-uncased" }
  else if model_name = "albert" then
    { classifier_model_class := ClassifierModelClass.albertForSequenceClassification
      embeddings_model_class := EmbeddingsModelClass.albertModel
      tokenizer_class := TokenizerClass.albertTokenizerFast
      pretrained_model_name := "albert-base-v2" }
  else if model_name = "bart" then
    { classifier_model_class := ClassifierModelClass.bartForSequenceClassification
      embeddings_model_class := EmbeddingsModelClass.bartModel
      tokenizer_class := TokenizerClass.bartTokenizerFast
      pretrained_model_name := "facebook/bart-large" }
  else
    { classifier_model_class := ClassifierModelClass.gpt2ForSequenceClassification
      embeddings_model_class := EmbeddingsModelClass.gpt2Model
      tokenizer_class := TokenizerClass.gpt2TokenizerFast
      pretrained_model_name := "gpt2" }

/-- Lines 120–124 of `__init__`: `if sent_embedder == 'last_token': self._sent_embedder =
self._mean_norm  else: self._sent_embedder = self._mean_norm` — both branches bind the
same static method. -/
def selectSentEmbedder (sent_embedder : String) : SentEmbedderImpl :=
  if sent_embedder = "last_token" then SentEmbedderImpl.mean_norm
  else SentEmbedderImpl.mean_norm

/-- The object state of a `PretrainedLang` encoder (Python attribute names without the
leading underscore).  `HS` is the abstract hidden-state type of backbone outputs. -/
structure PretrainedLang (HS : Type) where
  is_target : Bool
  prepared : Bool
  name : String
  pad_id : Option Nat
  max_len : Option Nat
  max_ele : Option Nat
  custom_train : Bool
  desired_error : ℚ
  max_training_time : Nat
  head : Option (TorchModule Unit)
  tokenizer : Option TokenizerFn
  model : Option (TorchModule (ModelFn HS))
  model_type : Option String
  classifier_model_class : ClassifierModelClass
  embeddings_model_class : EmbeddingsModelClass
  tokenizer_class : TokenizerClass
  pretrained_model_name : String
  sent_embedder : SentEmbedderImpl
  device : Device

/-- The base-encoder bookkeeping inherited through `super().__init__(is_target)`. -/
structure BaseEncoderState where
  is_target : Bool
  prepared : Bool

/-- Modelled from the spec: `BaseEncoder.__init__` (`lightwood/encoders/encoder_base.py`,
not included under `src/`) records `is_target` and provides the `_prepared` bookkeeping;
per the spec's state machine (**Unprepared → Prepared**, only `prepare` transitions
state) a freshly constructed encoder is Unprepared, i.e. `_prepared = False`. -/
def baseEncoderInit (is_target : Bool) : BaseEncoderState :=
  { is_target := is_target, prepared := false }

/-- `PretrainedLang.__init__`.  The compute device is passed in as `detected_device`,
standing for the result of the external device-selection utility `get_devices()`. -/
def PretrainedLang.init (HS : Type) (is_target : Bool) (model_name : String)
    (desired_error : ℚ) (max_training_time : Nat) (custom_train : Bool)
    (custom_tokenizer : Option TokenizerFn) (sent_embedder : String)
    (detected_device : Device) : PretrainedLang HS :=
  let base := baseEncoderInit is_target
  let binding := resolveModelBinding model_name
  { is_target := base.is_target
    prepared := base.prepared
    name := model_name ++ " text encoder"
    pad_id := none
    max_len := none
    max_ele := none
    custom_train := custom_train
    desired_error := desired_error
    max_training_time := max_training_time
    head := none
    tokenizer := custom_tokenizer
    model := none
    model_type := none
    classifier_model_class := binding.classifier_model_class
    embeddings_model_class := binding.embeddings_model_class
    tokenizer_class := binding.tokenizer_class
    pretrained_model_name := binding.pretrained_model_name
    sent_embedder := selectSentEmbedder sent_embedder
    device := detected_device }

/-- `PretrainedLang.to(device, available_devices)`.  Note the source moves the model to
`self.device`, not to the `device` argument; `self._model.to(...)` on a `None` model
raises `AttributeError`. -/
def PretrainedLang.to {HS : Type} (s : PretrainedLang HS) (device : Device)
    (available_devices : List Device) : Except EncErr (PretrainedLang HS) :=
  match s.model with
  | none => Except.error EncErr.attributeError
  | some m =>
    let s1 := { s with model := some (TorchModule.to m s.device) }
    match s1.head with
    | none => Except.ok s1
    | some h => Except.ok { s1 with head := some (TorchModule.to h s1.device) }

/-- `PretrainedLang.prepare`, parameterized by the `from_pretrained` loaders of the
`transformers` library.  Returns the state as mutated up to the point of return or
raise, together with the raised error if any. -/
def PretrainedLang.prepare {HS : Type}
    (fromPretrainedTokenizer : TokenizerClass → String → TokenizerFn)
    (fromPretrainedModel : EmbeddingsModelClass → String → ModelFn HS)
    (s : PretrainedLang HS) : PretrainedLang HS × Option EncErr :=
  if s.prepared then (s, some EncErr.alreadyPrepared)
  else
    let s1 :=
      match s.tokenizer with
      | none => { s with tokenizer := some (fromPretrainedTokenizer s.tokenizer_class s.pretrained_model_name) }
      | some _ => s
    if s1.custom_train = true then (s1, some EncErr.trainNotImplemented)
    else
      let s2 := { s1 with
        model_type := some "embeddings_generator"
        model := some
          { payload := fromPretrainedModel s1.embeddings_model_class s1.pretrained_model_name
            device := s1.device } }
      ({ s2 with prepared := true }, none)

/-- `torch.stack(encoded_representation)`: raises on an empty list, otherwise stacks
the rows in order. -/
def torchStack {α : Type} (l : List α) : Except EncErr (List α) :=
  if l.isEmpty then Except.error EncErr.emptyTensorList else Except.ok l

/-- The loop body of `PretrainedLang.encode`: normalize `None` to the empty string,
tokenize, run the backbone forward pass, read `.last_hidden_state` and pool with the
selected sentence embedder (`interp` interprets the selected static method on `HS`). -/
def PretrainedLang.encodeStep {HS Emb : Type} (interp : SentEmbedderImpl → HS → Emb)
    (s : PretrainedLang HS) (text : Option String) : Except EncErr Emb :=
  match s.tokenizer, s.model with
  | some tokenizer, some model =>
    Except.ok (interp s.sent_embedder
      (model.payload (tokenizer (text.getD ""))).last_hidden_state)
  | none, _ => Except.error EncErr.attributeError
  | some _, none => Except.error EncErr.noneNotCallable

/-- `PretrainedLang.encode(column_data)`: when `self._model_type ==
"embeddings_generator"` run the loop over `column_data`, appending one pooled output per
input in order; finally `torch.stack` the accumulated list (which raises when the list
is empty, in particular whenever the mode guard was not taken). -/
def PretrainedLang.encode {HS Emb : Type} (interp : SentEmbedderImpl → HS → Emb)
    (s : PretrainedLang HS) (column_data : List (Option String)) :
    Except EncErr (List Emb) :=
  match (if s.model_type = some "embeddings_generator" then
      column_data.mapM (PretrainedLang.encodeStep interp s)
    else Except.ok []) with
  | Except.error e => Except.error e
  | Except.ok encoded_representation => torchStack encoded_representation

/-- `PretrainedLang.decode`: unconditionally `raise Exception("Decoder not implemented
yet.")`. -/
def PretrainedLang.decode {HS EVT : Type} (s : PretrainedLang HS)
    (encoded_values_tensor : EVT) (max_length : Nat) : Except EncErr Empty :=
  Except.error EncErr.decodeNotImplemented

/-- `PretrainedLang._mean_norm` at its default `dim=1`, over exact rationals: the mean
along the token axis of an `Nbatch × Ntokens × Nembedding` tensor
(`torch.mean(xinp, dim=1)`; `.detach().numpy()` is the identity on values). -/
def PretrainedLang.mean_norm {B T E : Nat} (xinp : Fin B → Fin T → Fin E → ℚ) :
    Fin B → Fin E → ℚ :=
  fun b e => (∑ t, xinp b t e) / (T : ℚ)

/-- Reorder the token axis (dimension 1) of an `Nbatch × Ntokens × Nembedding` tensor
by a permutation. -/
def permuteTokens {B T E : Nat} (p : Equiv.Perm (Fin T))
    (xinp : Fin B → Fin T → Fin E → ℚ) : Fin B → Fin T → Fin E → ℚ :=
  fun b t => xinp b (p t)

/-! ### Concrete fixtures used by witnesses and counterexamples -/

/-- A concrete tokenizer for witnesses: one token id, the text's length. -/
def tok0 : TokenizerFn := fun s => [s.length]

/-- A concrete backbone forward function for witnesses: the hidden state is the token
id list itself. -/
def model0 : ModelFn (List Nat) := fun ids => { last_hidden_state := ids }

/-- A concrete `from_pretrained` tokenizer loader for witnesses. -/
def fromTok0 : TokenizerClass → String → TokenizerFn := fun _ _ => tok0

/-- A concrete `from_pretrained` model loader for witnesses. -/
def fromModel0 : EmbeddingsModelClass → String → ModelFn (List Nat) := fun _ _ => model0

/-- A concrete interpretation of the selected pooling method for witnesses. -/
def interpId : SentEmbedderImpl → List Nat → List Nat := fun _ h => h

/-- A freshly constructed encoder (default arguments of `__init__`). -/
def s0 : PretrainedLang (List Nat) :=
  PretrainedLang.init (List Nat) false "gpt2" (1 / 100) 7200 false none "mean_norm" Device.cpu

/-- The encoder `s0` after a successful `prepare`. -/
def sPrep : PretrainedLang (List Nat) :=
  (PretrainedLang.prepare fromTok0 fromModel0 s0).1

/-- The backbone module living in `sPrep`. -/
def m0 : TorchModule (ModelFn (List Nat)) := { payload := model0, device := Device.cpu }

/-! ### Helper lemmas -/

/-- `mapM` of an always-succeeding step over `Except` is `map`. -/
theorem mapM_ok {α β : Type} (f : α → β) (l : List α) :
    l.mapM (fun a => (Except.ok (f a) : Except EncErr β)) = Except.ok (l.map f) := by
  induction l with
  | nil => rfl
  | cons a t ih => rw [List.mapM_cons, ih]; rfl

/-- In embeddings-generator mode with tokenizer and model loaded, `encode` is
`torch.stack` of the per-input pipeline mapped over the column. -/
theorem encode_eq_torchStack {HS Emb : Type} (interp : SentEmbedderImpl → HS → Emb)
    (s : PretrainedLang HS) (tokenizer : TokenizerFn) (model : TorchModule (ModelFn HS))
    (h1 : s.model_type = some "embeddings_generator") (h2 : s.tokenizer = some tokenizer)
    (h3 : s.model = some model) (column_data : List (Option String)) :
    PretrainedLang.encode interp s column_data =
      torchStack (column_data.map (fun text =>
        interp s.sent_embedder (model.payload (tokenizer (text.getD ""))).last_hidden_state)) := by
  have hstep : PretrainedLang.encodeStep interp s = fun text =>
      (Except.ok (interp s.sent_embedder
        (model.payload (tokenizer (text.getD ""))).last_hidden_state) : Except EncErr Emb) := by
    funext text
    unfold PretrainedLang.encodeStep
    rw [h2, h3]
  unfold PretrainedLang.encode
  rw [if_pos h1, hstep, mapM_ok]

/-- Replacing the element at position `i` by one with the same image under `f` does not
change the mapped list. -/
theorem map_set_congr {α β : Type} (f : α → β) (l : List α) (i : Nat) (a b : α)
    (h : l[i]? = some a) (hf : f a = f b) : (l.set i b).map f = l.map f := by
  induction l generalizing i with
  | nil => simp [List.set]
  | cons x t ih =>
    cases i with
    | zero =>
      simp only [List.getElem?_cons_zero, Option.some.injEq] at h
      subst h
      simp [List.set, ← hf]
    | succ n =>
      simp only [List.getElem?_cons_succ] at h
      simp [List.set, ih n h]

/-! ### Claims -/

/-- C1 (counterexample): on a freshly constructed, never-prepared encoder, `encode`
does not fail with the "not prepared" error the claim demands — it fails with the
`torch.stack`-on-empty-list runtime error instead. -/
theorem C1_counterexample :
    PretrainedLang.encode interpId s0 [some "hello"] = Except.error EncErr.emptyTensorList ∧
    PretrainedLang.encode interpId s0 [some "hello"] ≠ Except.error EncErr.notPrepared := by
  refine ⟨rfl, fun hc => ?_⟩
  exact EncErr.noConfusion (Except.error.inj hc)

/-- C1 (amended): a never-prepared encoder has `_model_type = None`, and for every
encoder whose `_model_type` is not yet set and every `column_data`, `encode` fails —
but with the `RuntimeError` of `torch.stack` on an empty list (no pooled output is ever
appended because the mode guard is not taken), not with a "not prepared" error. -/
theorem C1_encode_before_prepare_fails :
    (∀ (HS : Type) (it : Bool) (mn : String) (de : ℚ) (mtt : Nat) (ct : Bool)
      (ctok : Option TokenizerFn) (se : String) (dev : Device),
      (PretrainedLang.init HS it mn de mtt ct ctok se dev).model_type = none) ∧
    (∀ (HS Emb : Type) (interp : SentEmbedderImpl → HS → Emb) (s : PretrainedLang HS),
      s.model_type = none → ∀ column_data : List (Option String),
      PretrainedLang.encode interp s column_data = Except.error EncErr.emptyTensorList) := by
  constructor
  · intro HS it mn de mtt ct ctok se dev
    rfl
  · intro HS Emb interp s h column_data
    unfold PretrainedLang.encode
    rw [if_neg (by rw [h]; exact fun hc => Option.noConfusion hc)]
    rfl

/-- C1 (witness): the amended theorem applied to a concrete unprepared encoder and a
concrete column. -/
theorem C1_encode_before_prepare_fails_witness :
    PretrainedLang.encode interpId s0 [some "hello", none] = Except.error EncErr.emptyTensorList :=
  C1_encode_before_prepare_fails.2 (List Nat) (List Nat) interpId s0 rfl [some "hello", none]

/-- C2: both branches of the `sent_embedder` dispatch select `_mean_norm`: every
configuration string (including `"last_token"`) yields the mean implementation, so the
encoder constructed with `sent_embedder='last_token'` carries the identical pooling
function as the one constructed with `'mean_norm'`. -/
theorem C2_sent_embedder_selection :
    (∀ se : String, selectSentEmbedder se = SentEmbedderImpl.mean_norm) ∧
    ∀ (HS : Type) (it : Bool) (mn : String) (de : ℚ) (mtt : Nat) (ct : Bool)
      (ctok : Option TokenizerFn) (dev : Device),
      (PretrainedLang.init HS it mn de mtt ct ctok "last_token" dev).sent_embedder =
        (PretrainedLang.init HS it mn de mtt ct ctok "mean_norm" dev).sent_embedder ∧
      (PretrainedLang.init HS it mn de mtt ct ctok "last_token" dev).sent_embedder =
        SentEmbedderImpl.mean_norm := by
  constructor
  · intro se
    unfold selectSentEmbedder
    split <;> rfl
  · intro HS it mn de mtt ct ctok dev
    exact ⟨rfl, rfl⟩

/-- C3 (counterexample): on the empty input sequence, a prepared encoder in
embeddings-generator mode does not return a 0-row array — `torch.stack` of the empty
accumulated list raises. -/
theorem C3_counterexample :
    PretrainedLang.encode interpId sPrep [] = Except.error EncErr.emptyTensorList ∧
    ¬ ∃ rows : List (List Nat), PretrainedLang.encode interpId sPrep [] = Except.ok rows := by
  refine ⟨rfl, ?_⟩
  rintro ⟨rows, hr⟩
  exact Except.noConfusion hr

/-- C3 (amended): for every prepared encoder in embeddings-generator mode and every
NON-EMPTY `column_data`, `encode` returns rows whose count equals the input length,
with row `i` the encoding (tokenize, forward pass, pool) of input `i`; on the empty
input `encode` instead raises from `torch.stack` of an empty list. -/
theorem C3_encode_rows_in_order {HS Emb : Type} (interp : SentEmbedderImpl → HS → Emb)
    (s : PretrainedLang HS) (tokenizer : TokenizerFn) (model : TorchModule (ModelFn HS))
    (h1 : s.model_type = some "embeddings_generator") (h2 : s.tokenizer = some tokenizer)
    (h3 : s.model = some model) (column_data : List (Option String))
    (hne : column_data ≠ []) :
    ∃ rows : List Emb,
      PretrainedLang.encode interp s column_data = Except.ok rows ∧
      rows.length = column_data.length ∧
      ∀ i : Nat, rows[i]? = (column_data[i]?).map (fun text =>
        interp s.sent_embedder (model.payload (tokenizer (text.getD ""))).last_hidden_state) := by
  refine ⟨column_data.map (fun text =>
    interp s.sent_embedder (model.payload (tokenizer (text.getD ""))).last_hidden_state),
    ?_, by simp, fun i => by rw [List.getElem?_map]⟩
  rw [encode_eq_torchStack interp s tokenizer model h1 h2 h3]
  cases column_data with
  | nil => exact absurd rfl hne
  | cons a t => rfl

/-- C3 (witness): the amended theorem applied to a concretely prepared encoder and a
two-element column. -/
theorem C3_encode_rows_in_order_witness :
    ∃ rows : List (List Nat),
      PretrainedLang.encode interpId sPrep [some "ab", none] = Except.ok rows ∧
      rows.length = ([some "ab", none] : List (Option String)).length ∧
      ∀ i : Nat, rows[i]? = (([some "ab", none] : List (Option String))[i]?).map (fun text =>
        interpId sPrep.sent_embedder ((m0.payload (tok0 (text.getD ""))).last_hidden_state)) :=
  C3_encode_rows_in_order interpId sPrep tok0 m0 rfl rfl rfl [some "ab", none] (by decide)

/-- C4: a `None` entry is normalized to the empty string: on a prepared
embeddings-generator encoder, `encode` does not fail on a null entry, and replacing the
`None` at position `i` by `''` yields the very same output rows. -/
theorem C4_none_as_empty_string {HS Emb : Type} (interp : SentEmbedderImpl → HS → Emb)
    (s : PretrainedLang HS) (tokenizer : TokenizerFn) (model : TorchModule (ModelFn HS))
    (h1 : s.model_type = some "embeddings_generator") (h2 : s.tokenizer = some tokenizer)
    (h3 : s.model = some model) (column_data : List (Option String)) (i : Nat)
    (hi : column_data[i]? = some none) :
    ∃ rows : List Emb,
      PretrainedLang.encode interp s column_data = Except.ok rows ∧
      PretrainedLang.encode interp s (column_data.set i (some "")) = Except.ok rows := by
  have hne : column_data ≠ [] := by
    intro hnil
    rw [hnil] at hi
    exact Option.noConfusion hi
  have key : (column_data.set i (some "")).map (fun text =>
      interp s.sent_embedder (model.payload (tokenizer (text.getD ""))).last_hidden_state) =
      column_data.map (fun text =>
      interp s.sent_embedder (model.payload (tokenizer (text.getD ""))).last_hidden_state) :=
    map_set_congr _ column_data i none (some "") hi rfl
  refine ⟨column_data.map (fun text =>
    interp s.sent_embedder (model.payload (tokenizer (text.getD ""))).last_hidden_state), ?_, ?_⟩
  · rw [encode_eq_torchStack interp s tokenizer model h1 h2 h3]
    cases column_data with
    | nil => exact absurd rfl hne
    | cons a t => rfl
  · rw [encode_eq_torchStack interp s tokenizer model h1 h2 h3, key]
    cases column_data with
    | nil => exact absurd rfl hne
    | cons a t => cases i <;> rfl

/-- C4 (witness): the theorem applied to a concretely prepared encoder and the column
`[some "x", None]` with the `None` at position 1. -/
theorem C4_none_as_empty_string_witness :
    ∃ rows : List (List Nat),
      PretrainedLang.encode interpId sPrep [some "x", none] = Except.ok rows ∧
      PretrainedLang.encode interpId sPrep (([some "x", none] : List (Option String)).set 1 (some "")) =
        Except.ok rows :=
  C4_none_as_empty_string interpId sPrep tok0 m0 rfl rfl rfl [some "x", none] 1 rfl

/-- C5: the model-family dispatch is a deterministic total function: each of
`distilbert`, `albert`, `bart`, `gpt2` resolves to its own binding, and every other
`model_name` falls back to the gpt2 binding (checkpoint `"gpt2"`) instead of failing. -/
theorem C5_model_registry :
    resolveModelBinding "distilbert" =
      { classifier_model_class := ClassifierModelClass.distilBertForSequenceClassification
        embeddings_model_class := EmbeddingsModelClass.distilBertModel
        tokenizer_class := TokenizerClass.distilBertTokenizerFast
        pretrained_model_name := "distilbert-base-uncased" } ∧
    resolveModelBinding "albert" =
      { classifier_model_class := ClassifierModelClass.albertForSequenceClassification
        embeddings_model_class := EmbeddingsModelClass.albertModel
        tokenizer_class := TokenizerClass.albertTokenizerFast
        pretrained_model_name := "albert-base-v2" } ∧
    resolveModelBinding "bart" =
      { classifier_model_class := ClassifierModelClass.bartForSequenceClassification
        embeddings_model_class := EmbeddingsModelClass.bartModel
        tokenizer_class := TokenizerClass.bartTokenizerFast
        pretrained_model_name := "facebook/bart-large" } ∧
    resolveModelBinding "gpt2" =
      { classifier_model_class := ClassifierModelClass.gpt2ForSequenceClassification
        embeddings_model_class := EmbeddingsModelClass.gpt2Model
        tokenizer_class := TokenizerClass.gpt2TokenizerFast
        pretrained_model_name := "gpt2" } ∧
    ∀ model_name : String, model_name ≠ "distilbert" → model_name ≠ "albert" →
      model_name ≠ "bart" → resolveModelBinding model_name = resolveModelBinding "gpt2" := by
  refine ⟨rfl, rfl, rfl, rfl, ?_⟩
  intro mn hd ha hb
  unfold resolveModelBinding
  rw [if_neg hd, if_neg ha, if_neg hb]
  rfl

/-- C5 (witness): the fallback clause applied to the unrecognized name
`"camembert"`. -/
theorem C5_model_registry_witness :
    resolveModelBinding "camembert" = resolveModelBinding "gpt2" :=
  C5_model_registry.2.2.2.2 "camembert" (by decide) (by decide) (by decide)

/-- C6 (counterexample): `to(cuda)` on an encoder whose stored device is `cpu` leaves
the backbone on `cpu` — the `device` argument is ignored, so the backbone is not
relocated to the requested device. -/
theorem C6_counterexample :
    (∃ s' : PretrainedLang (List Nat),
      PretrainedLang.to sPrep Device.cuda [] = Except.ok s' ∧
      s'.model.map TorchModule.device = some Device.cpu) ∧
    Device.cpu ≠ Device.cuda := by
  exact ⟨⟨_, rfl, rfl⟩, by decide⟩

/-- C6 (amended): for every device argument `d`, `to(d, available_devices)` relocates
the backbone — and the fine-tuning head when present — to the encoder's STORED device
`self.device` (the `d` argument is ignored), leaves all other state unchanged, and
returns the encoder object itself. -/
theorem C6_to_relocates_to_stored_device {HS : Type} (s : PretrainedLang HS)
    (m : TorchModule (ModelFn HS)) (hm : s.model = some m) (d : Device)
    (ads : List Device) :
    ∃ s' : PretrainedLang HS,
      PretrainedLang.to s d ads = Except.ok s' ∧
      s'.model = some (TorchModule.to m s.device) ∧
      s'.head = s.head.map (fun h => TorchModule.to h s.device) ∧
      s'.device = s.device ∧ s'.tokenizer = s.tokenizer ∧
      s'.model_type = s.model_type ∧ s'.prepared = s.prepared := by
  obtain ⟨it, pr, nm, pid, mlen, mele, ct, de, mtt, hd, tk, md, mt, cc, ec, tc, pn, sem, dv⟩ := s
  obtain rfl : md = some m := hm
  cases hd <;> exact ⟨_, rfl, rfl, rfl, rfl, rfl, rfl, rfl⟩

/-- C6 (witness): the amended theorem applied to a concretely prepared encoder (stored
device `cpu`) with the argument `cuda`. -/
theorem C6_to_relocates_to_stored_device_witness :
    ∃ s' : PretrainedLang (List Nat),
      PretrainedLang.to sPrep Device.cuda [] = Except.ok s' ∧
      s'.model = some (TorchModule.to m0 sPrep.device) ∧
      s'.head = sPrep.head.map (fun h => TorchModule.to h sPrep.device) ∧
      s'.device = sPrep.device ∧ s'.tokenizer = sPrep.tokenizer ∧
      s'.model_type = sPrep.model_type ∧ s'.prepared = sPrep.prepared :=
  C6_to_relocates_to_stored_device sPrep m0 rfl Device.cuda []

/-- C7: unimplemented capabilities fail loudly: `prepare` on any encoder constructed
with `custom_train=True` raises the not-implemented error, and `decode` raises its
not-implemented error in every state for every input. -/
theorem C7_unimplemented_capabilities {HS EVT : Type}
    (ft : TokenizerClass → String → TokenizerFn)
    (fm : EmbeddingsModelClass → String → ModelFn HS) :
    (∀ (it : Bool) (mn : String) (de : ℚ) (mtt : Nat) (ctok : Option TokenizerFn)
      (se : String) (dev : Device),
      (PretrainedLang.prepare ft fm (PretrainedLang.init HS it mn de mtt true ctok se dev)).2 =
        some EncErr.trainNotImplemented) ∧
    (∀ (s : PretrainedLang HS) (v : EVT) (ml : Nat),
      PretrainedLang.decode s v ml = Except.error EncErr.decodeNotImplemented) := by
  constructor
  · intro it mn de mtt ctok se dev
    cases ctok <;> rfl
  · intro s v ml
    rfl

/-- C8: calling `prepare` on an already-prepared encoder raises the "already prepared"
error and returns with the encoder state completely unchanged. -/
theorem C8_prepare_twice {HS : Type} (ft : TokenizerClass → String → TokenizerFn)
    (fm : EmbeddingsModelClass → String → ModelFn HS) (s : PretrainedLang HS)
    (h : s.prepared = true) :
    PretrainedLang.prepare ft fm s = (s, some EncErr.alreadyPrepared) := by
  unfold PretrainedLang.prepare
  rw [if_pos h]

/-- C8 (witness): the theorem applied to a concretely prepared encoder. -/
theorem C8_prepare_twice_witness :
    PretrainedLang.prepare fromTok0 fromModel0 sPrep = (sPrep, some EncErr.alreadyPrepared) :=
  C8_prepare_twice fromTok0 fromModel0 sPrep rfl

/-- C9: `_mean_norm` (mean over the token axis, `dim=1`) is invariant under every
permutation of the token dimension. -/
theorem C9_mean_norm_permutation_invariant {B T E : Nat} (p : Equiv.Perm (Fin T))
    (xinp : Fin B → Fin T → Fin E → ℚ) :
    PretrainedLang.mean_norm (permuteTokens p xinp) = PretrainedLang.mean_norm xinp := by
  funext b e
  unfold PretrainedLang.mean_norm permuteTokens
  congr 1
  exact Equiv.sum_comp p fun t => xinp b t e

/-- C10: `prepare` is not atomic on its `custom_train=True` failure path: starting from
a fresh encoder with `custom_train=True` and no custom tokenizer, the failing call has
already loaded and assigned the pretrained tokenizer, while `_prepared` stays `False`
and `_model` / `_model_type` stay unset. -/
theorem C10_prepare_error_sets_tokenizer {HS : Type}
    (ft : TokenizerClass → String → TokenizerFn)
    (fm : EmbeddingsModelClass → String → ModelFn HS) (it : Bool) (mn : String)
    (de : ℚ) (mtt : Nat) (se : String) (dev : Device) :
    (PretrainedLang.prepare ft fm (PretrainedLang.init HS it mn de mtt true none se dev)).2 =
      some EncErr.trainNotImplemented ∧
    (PretrainedLang.prepare ft fm (PretrainedLang.init HS it mn de mtt true none se dev)).1.tokenizer =
      some (ft (resolveModelBinding mn).tokenizer_class (resolveModelBinding mn).pretrained_model_name) ∧
    (PretrainedLang.prepare ft fm (PretrainedLang.init HS it mn de mtt true none se dev)).1.prepared = false ∧
    (PretrainedLang.prepare ft fm (PretrainedLang.init HS it mn de mtt true none se dev)).1.model = none ∧
    (PretrainedLang.prepare ft fm (PretrainedLang.init HS it mn de mtt true none se dev)).1.model_type = none := by
  exact ⟨rfl, rfl, rfl, rfl, rfl⟩

end Lightwood
